import Mathlib

/-!
Verification of the ticketing backend (root implementation `index.js` and the
near-duplicate `server/index.js`) against its natural-language specification.

The service is a thin REST wrapper around one SQLite table `tickets`.  We embed
the table as a list of rows (in rowid/insertion order) and each HTTP handler as
a pure function from the request data and the store to an HTTP-level response
plus the new store.  SQLite specifics that matter are modelled faithfully:
`INSERT` appends a row and fails on a primary-key (or, in the server variant,
`qr_code UNIQUE`) violation; `UPDATE ... WHERE c` rewrites every matching row
and reports the number of matched rows as `changes`; `DELETE ... WHERE c`
removes every matching row; `SELECT * ... ORDER BY created_at DESC` returns the
rows sorted by the `created_at` text in descending (lexicographic, SQLite binary
collation) order; `db.get` returns the first matching row.

JavaScript truthiness of a request field (`if (!x)`) is embedded by `truthy` on
`Option String`: an absent field and the empty string are both falsy.
-/

/-- A row of the `tickets` table (schema from `CREATE TABLE tickets` in both
implementations).  `buyer_email` is nullable; all other columns are populated
on every insert the code performs. -/
structure Ticket where
  id : String
  buyer_name : String
  buyer_email : Option String
  event_name : String
  created_at : String
  status : String
  qr_code : String
deriving DecidableEq, Repr

/-- The `tickets` table, rows in rowid (insertion) order. -/
abbrev Store := List Ticket

/-- The status literal `'Válido'` (schema default, used by both implementations). -/
def statusValid : String := "Válido"

/-- The status literal `'Canjeado'` written by the redeem handlers. -/
def statusRedeemed : String := "Canjeado"

/-- JavaScript truthiness of an optional string request field: `undefined`
(absent) and `""` are falsy, every other string is truthy. -/
def truthy : Option String → Bool
  | none => false
  | some s => s != ""

/-- Modelled from the spec: the QR Encoder is an external collaborator
(`qrcode.toDataURL`, not part of this repository).  The spec states the
`qr_code` payload is a deterministic image-data encoding of `id`, so we model
it as an injective pure function of the identifier. -/
def qrToDataURL (id : String) : String := "data:image/png;base64," ++ id

/-- An HTTP response: 200 with a JSON body, or an error status with a message. -/
inductive Resp (α : Type) where
  | ok (body : α)
  | err (code : Nat) (msg : String)
deriving DecidableEq, Repr

/-- The HTTP status code of a response (200 for `ok`). -/
def Resp.code {α : Type} : Resp α → Nat
  | .ok _ => 200
  | .err c _ => c

/-- Body of `POST /api/tickets` requests; each field may be absent. -/
structure CreateReq where
  buyer_name : Option String
  buyer_email : Option String
  event_name : Option String
deriving DecidableEq, Repr

/-- Outcome of a create handler: the HTTP response, the store after the
request, and the list of identifiers passed to the QR encoder (so that "no QR
is generated" is an observable fact). -/
structure CreateOut where
  resp : Resp Ticket
  store : Store
  qrCalls : List String
deriving DecidableEq, Repr

/-- `POST /api/tickets` of the root implementation (`index.js` lines 41-76).
`newId` is the fresh UUID, `respNow` the `moment().format()` reading used in
the response, `dbNow` the CURRENT_TIMESTAMP the database default writes into
the row (the INSERT does not supply `created_at`). -/
def createRoot (req : CreateReq) (newId respNow dbNow : String) (s : Store) : CreateOut :=
  if truthy req.buyer_name && truthy req.event_name then
    let qr := qrToDataURL newId
    if s.any (fun t => t.id == newId) then
      { resp := .err 500 "Error creando el ticket", store := s, qrCalls := [newId] }
    else
      let row : Ticket :=
        { id := newId, buyer_name := req.buyer_name.getD "",
          buyer_email := req.buyer_email, event_name := req.event_name.getD "",
          created_at := dbNow, status := statusValid, qr_code := qr }
      { resp := .ok { row with created_at := respNow },
        store := s ++ [row], qrCalls := [newId] }
  else
    { resp := .err 400 "Nombre del comprador y evento son requeridos",
      store := s, qrCalls := [] }

/-- `POST /api/tickets` of the server implementation (`server/index.js` lines
53-89).  Identical to the root handler except for the 400/500 message texts,
the `created_at` response formatting (both are modelled by the opaque clock
reading `respNow`), and the `qr_code UNIQUE` constraint of its schema. -/
def createServer (req : CreateReq) (newId respNow dbNow : String) (s : Store) : CreateOut :=
  if truthy req.buyer_name && truthy req.event_name then
    let qr := qrToDataURL newId
    if s.any (fun t => t.id == newId || t.qr_code == qr) then
      { resp := .err 500 "Error al crear el ticket", store := s, qrCalls := [newId] }
    else
      let row : Ticket :=
        { id := newId, buyer_name := req.buyer_name.getD "",
          buyer_email := req.buyer_email, event_name := req.event_name.getD "",
          created_at := dbNow, status := statusValid, qr_code := qr }
      { resp := .ok { row with created_at := respNow },
        store := s ++ [row], qrCalls := [newId] }
  else
    { resp := .err 400 "Nombre del comprador y nombre del evento son requeridos",
      store := s, qrCalls := [] }

/-- The row a successful insert persists: `created_at` is filled by the
database default `CURRENT_TIMESTAMP` (`dbNow`), not by the application. -/
def mkRow (req : CreateReq) (newId dbNow : String) : Ticket :=
  { id := newId, buyer_name := req.buyer_name.getD "",
    buyer_email := req.buyer_email, event_name := req.event_name.getD "",
    created_at := dbNow, status := statusValid, qr_code := qrToDataURL newId }

/-- The descending `created_at` order used by `ORDER BY created_at DESC`. -/
def tsDesc (a b : Ticket) : Prop := b.created_at ≤ a.created_at

instance : DecidableRel tsDesc := fun a b =>
  inferInstanceAs (Decidable (b.created_at ≤ a.created_at))

instance : IsTotal Ticket tsDesc :=
  ⟨fun a b => le_total b.created_at a.created_at⟩

instance : IsTrans Ticket tsDesc :=
  ⟨fun _ _ _ h1 h2 => le_trans h2 h1⟩

/-- `SELECT * FROM tickets ORDER BY created_at DESC`. -/
def orderByCreatedAtDesc (s : Store) : List Ticket :=
  List.insertionSort tsDesc s

/-- `GET /api/tickets` of the root implementation (`index.js` lines 78-87). -/
def listRoot (s : Store) : Resp (List Ticket) :=
  .ok (orderByCreatedAtDesc s)

/-- `GET /api/tickets` of the server implementation (`server/index.js` lines
92-103); the query is identical to the root one. -/
def listServer (s : Store) : Resp (List Ticket) :=
  .ok (orderByCreatedAtDesc s)

/-- `GET /api/tickets/:id` of the root implementation (`index.js` lines
89-102). -/
def getByIdRoot (id : String) (s : Store) : Resp Ticket :=
  match s.find? (fun t => t.id == id) with
  | none => .err 404 "Ticket no encontrado"
  | some row => .ok row

/-- `GET /api/tickets/:id` of the server implementation (`server/index.js`
lines 106-123); identical query and messages. -/
def getByIdServer (id : String) (s : Store) : Resp Ticket :=
  match s.find? (fun t => t.id == id) with
  | none => .err 404 "Ticket no encontrado"
  | some row => .ok row

/-- Body of the validation endpoints.  `already_redeemed` is the extra flag
only the server implementation ever sets; `ticket` is the attached row when
the handler includes one. -/
structure ValidationBody where
  valid : Bool
  message : String
  already_redeemed : Option Bool
  ticket : Option Ticket
deriving DecidableEq, Repr

/-- `POST /api/tickets/validate` of the root implementation (`index.js` lines
104-123).  Read-only: it takes the store and returns only a response. -/
def validateRoot (ticket_id : Option String) (s : Store) : Resp ValidationBody :=
  if truthy ticket_id then
    match s.find? (fun t => t.id == ticket_id.getD "") with
    | none =>
        .ok { valid := false, message := "Ticket no encontrado",
              already_redeemed := none, ticket := none }
    | some row =>
        if row.status == statusRedeemed then
          .ok { valid := false, message := "Ticket ya fue canjeado",
                already_redeemed := none, ticket := some row }
        else
          .ok { valid := true, message := "Ticket válido",
                already_redeemed := none, ticket := some row }
  else
    .err 400 "ID del ticket es requerido"

/-- `POST /api/tickets/validate` of the server implementation
(`server/index.js` lines 126-162).  Differs from the root handler only in the
already-redeemed branch: it sets `already_redeemed` and attaches no ticket. -/
def validateServer (ticket_id : Option String) (s : Store) : Resp ValidationBody :=
  if truthy ticket_id then
    match s.find? (fun t => t.id == ticket_id.getD "") with
    | none =>
        .ok { valid := false, message := "Ticket no encontrado",
              already_redeemed := none, ticket := none }
    | some row =>
        if row.status == statusRedeemed then
          .ok { valid := false, message := "Ticket ya fue canjeado",
                already_redeemed := some true, ticket := none }
        else
          .ok { valid := true, message := "Ticket válido",
                already_redeemed := none, ticket := some row }
  else
    .err 400 "ID del ticket es requerido"

/-- Success body of the redeem and delete endpoints: the server variant adds a
`success: true` flag that the root variant omits (`none`). -/
structure MsgBody where
  success : Option Bool
  message : String
deriving DecidableEq, Repr

/-- `POST /api/tickets/redeem` of the root implementation (`index.js` lines
125-146): `UPDATE tickets SET status = "Canjeado" WHERE id = ? AND status =
"Válido"`, then 400 if `this.changes === 0`. -/
def redeemRoot (ticket_id : Option String) (s : Store) : Resp MsgBody × Store :=
  if truthy ticket_id then
    let tid := ticket_id.getD ""
    let changed := s.countP (fun t => t.id == tid && t.status == statusValid)
    let s' := s.map (fun t =>
      if t.id == tid && t.status == statusValid then { t with status := statusRedeemed } else t)
    if changed == 0 then
      (.err 400 "Ticket no encontrado o ya fue canjeado", s')
    else
      (.ok { success := none, message := "Ticket canjeado exitosamente" }, s')
  else
    (.err 400 "ID del ticket es requerido", s)

/-- `POST /api/tickets/redeem` of the server implementation (`server/index.js`
lines 165-189): `UPDATE tickets SET status = ? WHERE id = ?` — the update is
NOT conditioned on the current status — then 404 if `this.changes === 0`.
SQLite counts every row matched by the WHERE clause in `changes`, even when
the stored value is rewritten to itself. -/
def redeemServer (ticket_id : Option String) (s : Store) : Resp MsgBody × Store :=
  if truthy ticket_id then
    let tid := ticket_id.getD ""
    let changed := s.countP (fun t => t.id == tid)
    let s' := s.map (fun t =>
      if t.id == tid then { t with status := statusRedeemed } else t)
    if changed == 0 then
      (.err 404 "Ticket no encontrado", s')
    else
      (.ok { success := some true,
             message := "🎉 ¡Ticket canjeado exitosamente! ¡Que disfrute el evento!" }, s')
  else
    (.err 400 "ID del ticket es requerido", s)

/-- `DELETE /api/tickets/:id` of the root implementation (`index.js` lines
148-161): `DELETE FROM tickets WHERE id = ?`, then 404 if no row changed. -/
def deleteRoot (id : String) (s : Store) : Resp MsgBody × Store :=
  let changed := s.countP (fun t => t.id == id)
  let s' := s.filter (fun t => !(t.id == id))
  if changed == 0 then
    (.err 404 "Ticket no encontrado", s')
  else
    (.ok { success := none, message := "Ticket eliminado exitosamente" }, s')

/-- `DELETE /api/tickets/:id` of the server implementation (`server/index.js`
lines 192-212); same query, the success body adds `success: true`. -/
def deleteServer (id : String) (s : Store) : Resp MsgBody × Store :=
  let changed := s.countP (fun t => t.id == id)
  let s' := s.filter (fun t => !(t.id == id))
  if changed == 0 then
    (.err 404 "Ticket no encontrado", s')
  else
    (.ok { success := some true, message := "Ticket eliminado exitosamente" }, s')

/-- A concrete well-formed create request (the spec's example scenario). -/
def reqAna : CreateReq :=
  { buyer_name := some "Ana", buyer_email := none, event_name := some "Concert" }

/-- The row `createRoot reqAna "t1" _ "2024-01-01 00:00:00" []` persists. -/
def tValid : Ticket :=
  { id := "t1", buyer_name := "Ana", buyer_email := none, event_name := "Concert",
    created_at := "2024-01-01 00:00:00", status := statusValid,
    qr_code := qrToDataURL "t1" }

/-- The same ticket after redemption. -/
def tRedeemed : Ticket := { tValid with status := statusRedeemed }

/-- Which endpoint performed a state transition.  The remaining three
endpoints (list, get-by-id, validate) are embedded as functions that take the
store and return only a response, so by construction they cannot change any
row. -/
inductive OpTag where
  | create
  | redeem
  | delete
deriving DecidableEq, Repr

/-- One state transition of the `tickets` table: any store-writing request of
either implementation, with every request datum quantified. -/
inductive Step : OpTag → Store → Store → Prop where
  | createR (req : CreateReq) (newId respNow dbNow : String) (s : Store) :
      Step .create s (createRoot req newId respNow dbNow s).store
  | createS (req : CreateReq) (newId respNow dbNow : String) (s : Store) :
      Step .create s (createServer req newId respNow dbNow s).store
  | redeemR (tid : Option String) (s : Store) :
      Step .redeem s (redeemRoot tid s).2
  | redeemS (tid : Option String) (s : Store) :
      Step .redeem s (redeemServer tid s).2
  | deleteR (id : String) (s : Store) :
      Step .delete s (deleteRoot id s).2
  | deleteS (id : String) (s : Store) :
      Step .delete s (deleteServer id s).2

/-- Stores reachable from the freshly created (empty) table. -/
inductive Reachable : Store → Prop where
  | nil : Reachable []
  | step (tag : OpTag) {s s' : Store} : Reachable s → Step tag s s' → Reachable s'

/-- Every row's status is one of the two legal literals. -/
def GoodStatus (s : Store) : Prop :=
  ∀ t ∈ s, t.status = statusValid ∨ t.status = statusRedeemed

/-- The primary-key invariant: no two rows share an `id`. -/
def UniqueIds (s : Store) : Prop :=
  (s.map Ticket.id).Nodup

/-- The store invariant maintained by every operation. -/
def StoreInv (s : Store) : Prop :=
  GoodStatus s ∧ UniqueIds s

/-! ### Helper lemmas -/

theorem truthy_some {tid : String} (h : tid ≠ "") : truthy (some tid) = true := by
  simp [truthy, h]

theorem find_append_fresh {p : Ticket → Bool} {s : Store} (x : Ticket)
    (h : ∀ t ∈ s, p t = false) :
    (s ++ [x]).find? p = if p x then some x else none := by
  induction s with
  | nil => cases hpx : p x <;> simp [List.find?, hpx]
  | cons a as ih =>
    have ha : p a = false := h a (by simp)
    rw [List.cons_append, List.find?_cons_of_neg _ (by simp [ha])]
    exact ih (fun t ht => h t (by simp [ht]))

theorem countP_fresh {p : Ticket → Bool} {s : Store} (h : ∀ t ∈ s, p t = false) :
    s.countP p = 0 :=
  List.countP_eq_zero.mpr (fun a ha => by simp [h a ha])

theorem map_fresh {g : Ticket → Ticket} {s : Store} (h : ∀ t ∈ s, g t = t) :
    s.map g = s := by
  induction s with
  | nil => rfl
  | cons a as ih => simp [h a (by simp), ih (fun t ht => h t (by simp [ht]))]

theorem mem_id_unique {s : Store} (hs : UniqueIds s) {t u : Ticket}
    (ht : t ∈ s) (hu : u ∈ s) (h : t.id = u.id) : t = u :=
  List.inj_on_of_nodup_map hs ht hu h

theorem validateRoot_found {tid : String} (ht : truthy (some tid) = true)
    {s : Store} {row : Ticket}
    (hf : s.find? (fun t => t.id == tid) = some row) :
    validateRoot (some tid) s =
      if row.status == statusRedeemed then
        .ok { valid := false, message := "Ticket ya fue canjeado",
              already_redeemed := none, ticket := some row }
      else
        .ok { valid := true, message := "Ticket válido",
              already_redeemed := none, ticket := some row } := by
  simp [validateRoot, ht, hf]

theorem validateServer_found {tid : String} (ht : truthy (some tid) = true)
    {s : Store} {row : Ticket}
    (hf : s.find? (fun t => t.id == tid) = some row) :
    validateServer (some tid) s =
      if row.status == statusRedeemed then
        .ok { valid := false, message := "Ticket ya fue canjeado",
              already_redeemed := some true, ticket := none }
      else
        .ok { valid := true, message := "Ticket válido",
              already_redeemed := none, ticket := some row } := by
  simp [validateServer, ht, hf]

theorem redeemRoot_run {tid : String} (ht : truthy (some tid) = true) (s : Store) :
    redeemRoot (some tid) s =
      (if s.countP (fun t => t.id == tid && t.status == statusValid) == 0 then
         .err 400 "Ticket no encontrado o ya fue canjeado"
       else .ok { success := none, message := "Ticket canjeado exitosamente" },
       s.map (fun t => if t.id == tid && t.status == statusValid
         then { t with status := statusRedeemed } else t)) := by
  simp only [redeemRoot, ht, if_true, Option.getD_some]
  split <;> rfl

theorem redeemServer_run {tid : String} (ht : truthy (some tid) = true) (s : Store) :
    redeemServer (some tid) s =
      (if s.countP (fun t => t.id == tid) == 0 then
         .err 404 "Ticket no encontrado"
       else .ok { success := some true,
                  message := "🎉 ¡Ticket canjeado exitosamente! ¡Que disfrute el evento!" },
       s.map (fun t => if t.id == tid then { t with status := statusRedeemed } else t)) := by
  simp only [redeemServer, ht, if_true, Option.getD_some]
  split <;> rfl

theorem deleteRoot_state (id : String) (s : Store) :
    (deleteRoot id s).2 = s.filter (fun t => !(t.id == id)) := by
  simp only [deleteRoot]
  split <;> rfl

theorem deleteServer_state (id : String) (s : Store) :
    (deleteServer id s).2 = s.filter (fun t => !(t.id == id)) := by
  simp only [deleteServer]
  split <;> rfl

/-! ### Claims -/

/-- C10: a Validate or Redeem request whose `ticket_id` is the empty string is
answered with the 400 missing-id error, identically to an absent field and
independently of the store contents — JavaScript truthiness does not
distinguish `""` from an absent field, so the handlers return before the
database query (the result is the same for every store `s`, `s'`). -/
theorem c10_empty_ticket_id_is_missing (s s' : Store) :
    validateRoot (some "") s = .err 400 "ID del ticket es requerido" ∧
    validateServer (some "") s = .err 400 "ID del ticket es requerido" ∧
    redeemRoot (some "") s = (.err 400 "ID del ticket es requerido", s) ∧
    redeemServer (some "") s = (.err 400 "ID del ticket es requerido", s) ∧
    validateRoot (some "") s = validateRoot none s' ∧
    validateServer (some "") s = validateServer none s' ∧
    (redeemRoot (some "") s).1 = (redeemRoot none s').1 ∧
    (redeemServer (some "") s).1 = (redeemServer none s').1 := by
  simp [validateRoot, validateServer, redeemRoot, redeemServer, truthy]

/-- C6: List returns all tickets — the response is a permutation of the store
— sorted by `created_at` descending, and on the empty store both
implementations return a 200 response carrying the empty sequence, never an
error. -/
theorem c6_list_ordered (s : Store) :
    listRoot s = .ok (orderByCreatedAtDesc s) ∧
    listServer s = .ok (orderByCreatedAtDesc s) ∧
    (orderByCreatedAtDesc s).Perm s ∧
    List.Sorted tsDesc (orderByCreatedAtDesc s) ∧
    listRoot ([] : Store) = .ok ([] : List Ticket) ∧
    listServer ([] : Store) = .ok ([] : List Ticket) :=
  ⟨rfl, rfl, List.perm_insertionSort tsDesc s, List.sorted_insertionSort tsDesc s, rfl, rfl⟩

/-- C1 (code bug in `server/index.js`): its redeem handler runs the
unconditional `UPDATE tickets SET status = ? WHERE id = ?`, so redeeming the
already-redeemed ticket `t1` succeeds with a 200 success body a second time,
where the claim (and the spec's "never succeeds twice" property) requires a
conflict failure.  The root implementation conditions the update on
`status = "Válido"` and correctly rejects the same request with 400, changing
no row. -/
theorem c1_server_redeem_unconditional :
    redeemServer (some "t1") [tRedeemed] =
      (.ok { success := some true,
             message := "🎉 ¡Ticket canjeado exitosamente! ¡Que disfrute el evento!" },
       [tRedeemed]) ∧
    redeemRoot (some "t1") [tRedeemed] =
      (.err 400 "Ticket no encontrado o ya fue canjeado", [tRedeemed]) := by
  constructor <;> rfl

/-- C4: Create rejects a request whose `buyer_name` or `event_name` is absent
or the empty string with the 400 validation error, leaves the store unchanged,
and never calls the QR encoder, in both implementations. -/
theorem c4_create_rejects_incomplete (req : CreateReq) (newId respNow dbNow : String)
    (s : Store)
    (h : req.buyer_name = none ∨ req.buyer_name = some "" ∨
         req.event_name = none ∨ req.event_name = some "") :
    createRoot req newId respNow dbNow s =
      { resp := .err 400 "Nombre del comprador y evento son requeridos",
        store := s, qrCalls := [] } ∧
    createServer req newId respNow dbNow s =
      { resp := .err 400 "Nombre del comprador y nombre del evento son requeridos",
        store := s, qrCalls := [] } := by
  have hc : (truthy req.buyer_name && truthy req.event_name) = false := by
    rcases h with h | h | h | h <;> simp [truthy, h]
  simp [createRoot, createServer, hc]

/-- Witness for C4 at a concrete request with a missing `buyer_name`. -/
theorem c4_witness :
    createRoot { buyer_name := none, buyer_email := none, event_name := some "Concert" }
        "t9" "a" "b" [] =
      { resp := .err 400 "Nombre del comprador y evento son requeridos",
        store := [], qrCalls := [] } ∧
    createServer { buyer_name := none, buyer_email := none, event_name := some "Concert" }
        "t9" "a" "b" [] =
      { resp := .err 400 "Nombre del comprador y nombre del evento son requeridos",
        store := [], qrCalls := [] } :=
  c4_create_rejects_incomplete _ "t9" "a" "b" [] (Or.inl rfl)

/-- C5 counterexample: the store holds the redeemed ticket `tRedeemed`, yet the
server implementation's Validate answers the already-redeemed case with
`ticket := none` — no ticket attached — contradicting the claim that the
ticket is attached whenever its status is `Redeemed`. -/
theorem c5_counterexample :
    tRedeemed ∈ [tRedeemed] ∧ tRedeemed.status = statusRedeemed ∧
    validateServer (some "t1") [tRedeemed] =
      .ok { valid := false, message := "Ticket ya fue canjeado",
            already_redeemed := some true, ticket := none } :=
  ⟨by simp, rfl, rfl⟩

/-- C5 (amended): for a non-empty id, Validate of both implementations returns
a structured 200 result, never an error, in the three non-store-failure cases:
absent ticket → `valid=false`, "not found", no ticket; redeemed ticket →
`valid=false`, "already redeemed", where the ROOT implementation attaches the
ticket but the SERVER implementation attaches none (setting `already_redeemed`
instead); valid ticket → `valid=true` with the ticket attached in both. -/
theorem c5_validate_result (tid : String) (s : Store) (h : tid ≠ "") :
    (s.find? (fun t => t.id == tid) = none →
      validateRoot (some tid) s =
        .ok { valid := false, message := "Ticket no encontrado",
              already_redeemed := none, ticket := none } ∧
      validateServer (some tid) s =
        .ok { valid := false, message := "Ticket no encontrado",
              already_redeemed := none, ticket := none }) ∧
    (∀ row : Ticket, s.find? (fun t => t.id == tid) = some row →
      row.status = statusRedeemed →
      validateRoot (some tid) s =
        .ok { valid := false, message := "Ticket ya fue canjeado",
              already_redeemed := none, ticket := some row } ∧
      validateServer (some tid) s =
        .ok { valid := false, message := "Ticket ya fue canjeado",
              already_redeemed := some true, ticket := none }) ∧
    (∀ row : Ticket, s.find? (fun t => t.id == tid) = some row →
      row.status = statusValid →
      validateRoot (some tid) s =
        .ok { valid := true, message := "Ticket válido",
              already_redeemed := none, ticket := some row } ∧
      validateServer (some tid) s =
        .ok { valid := true, message := "Ticket válido",
              already_redeemed := none, ticket := some row }) := by
  have ht := truthy_some h
  have hne : (statusValid == statusRedeemed) = false := by decide
  refine ⟨fun hf => ?_, fun row hf hr => ?_, fun row hf hr => ?_⟩
  · simp [validateRoot, validateServer, ht, hf]
  · simp [validateRoot, validateServer, ht, hf, hr]
  · simp [validateRoot, validateServer, ht, hf, hr, hne]

/-- Witness for C5 at the concrete valid ticket `tValid`. -/
theorem c5_witness :
    validateRoot (some "t1") [tValid] =
      .ok { valid := true, message := "Ticket válido",
            already_redeemed := none, ticket := some tValid } ∧
    validateServer (some "t1") [tValid] =
      .ok { valid := true, message := "Ticket válido",
            already_redeemed := none, ticket := some tValid } :=
  (c5_validate_result "t1" [tValid] (by decide)).2.2 tValid rfl rfl

/-- C8: Delete answers 404 and leaves the store untouched when no row carries
the requested id, and otherwise both implementations succeed, remove exactly
the rows with that id, and keep every other row (the result is a sublist of
the store containing precisely the rows whose id differs). -/
theorem c8_delete_frame (id : String) (s : Store) :
    ((∀ t ∈ s, t.id ≠ id) →
      deleteRoot id s = (.err 404 "Ticket no encontrado", s) ∧
      deleteServer id s = (.err 404 "Ticket no encontrado", s)) ∧
    ((∃ t ∈ s, t.id = id) →
      (deleteRoot id s).1 =
        .ok { success := none, message := "Ticket eliminado exitosamente" } ∧
      (deleteServer id s).1 =
        .ok { success := some true, message := "Ticket eliminado exitosamente" } ∧
      (deleteRoot id s).2 = (deleteServer id s).2 ∧
      (deleteRoot id s).2.Sublist s ∧
      (∀ t ∈ (deleteRoot id s).2, t ∈ s ∧ t.id ≠ id) ∧
      (∀ t ∈ s, t.id ≠ id → t ∈ (deleteRoot id s).2)) := by
  constructor
  · intro h
    have hc : s.countP (fun t => t.id == id) = 0 :=
      countP_fresh (fun t ht => by simp [h t ht])
    have hf : s.filter (fun t => !(t.id == id)) = s :=
      List.filter_eq_self.mpr (fun t ht => by simp [h t ht])
    simp [deleteRoot, deleteServer, hc, hf]
  · rintro ⟨t, ht, htid⟩
    subst htid
    have hc : s.countP (fun u => u.id == t.id) ≠ 0 := by
      have hpos : 0 < s.countP (fun u => u.id == t.id) :=
        List.countP_pos_iff.mpr ⟨t, ht, by simp⟩
      omega
    have hcb : (s.countP (fun u => u.id == t.id) == 0) = false :=
      beq_eq_false_iff_ne.mpr hc
    refine ⟨by simp [deleteRoot, hcb], by simp [deleteServer, hcb],
      by simp [deleteRoot, deleteServer, hcb], ?_, ?_, ?_⟩
    · have hd : (deleteRoot t.id s).2 = s.filter (fun u => !(u.id == t.id)) := by
        simp [deleteRoot, hcb]
      rw [hd]
      exact List.filter_sublist s
    · intro u hu
      simp [deleteRoot, hcb, List.mem_filter] at hu
      exact ⟨hu.1, hu.2⟩
    · intro u hu hne
      simp [deleteRoot, hcb, List.mem_filter, hu, hne]

/-- Witness for C8 at the concrete one-row store. -/
theorem c8_witness :
    (deleteRoot "t1" [tValid]).1 =
      .ok { success := none, message := "Ticket eliminado exitosamente" } ∧
    (deleteServer "t1" [tValid]).1 =
      .ok { success := some true, message := "Ticket eliminado exitosamente" } ∧
    (deleteRoot "t1" [tValid]).2 = (deleteServer "t1" [tValid]).2 ∧
    (deleteRoot "t1" [tValid]).2.Sublist [tValid] ∧
    (∀ t ∈ (deleteRoot "t1" [tValid]).2, t ∈ [tValid] ∧ t.id ≠ "t1") ∧
    (∀ t ∈ [tValid], t.id ≠ "t1" → t ∈ (deleteRoot "t1" [tValid]).2) :=
  (c8_delete_frame "t1" [tValid]).2 ⟨tValid, by simp, rfl⟩

theorem createRoot_success {req : CreateReq} (newId respNow dbNow : String) {s : Store}
    (hbn : truthy req.buyer_name = true) (hen : truthy req.event_name = true)
    (hfresh : ∀ t ∈ s, t.id ≠ newId) :
    createRoot req newId respNow dbNow s =
      { resp := .ok { mkRow req newId dbNow with created_at := respNow },
        store := s ++ [mkRow req newId dbNow], qrCalls := [newId] } := by
  have hany : s.any (fun t => t.id == newId) = false := by
    simp only [List.any_eq_false]
    intro t ht
    simp [hfresh t ht]
  simp [createRoot, hbn, hen, hany, mkRow]

theorem createServer_success {req : CreateReq} (newId respNow dbNow : String) {s : Store}
    (hbn : truthy req.buyer_name = true) (hen : truthy req.event_name = true)
    (hfresh : ∀ t ∈ s, t.id ≠ newId)
    (hqr : ∀ t ∈ s, t.qr_code ≠ qrToDataURL newId) :
    createServer req newId respNow dbNow s =
      { resp := .ok { mkRow req newId dbNow with created_at := respNow },
        store := s ++ [mkRow req newId dbNow], qrCalls := [newId] } := by
  have hany : s.any (fun t => t.id == newId || t.qr_code == qrToDataURL newId) = false := by
    simp only [List.any_eq_false]
    intro t ht
    simp [hfresh t ht, hqr t ht]
  simp [createServer, hbn, hen, hany, mkRow]

/-- C9: the `created_at` the root implementation returns from Create is the
`moment().format()` reading taken at response time (`respNow`), while the
INSERT omits `created_at`, so the row persists the database clock default
(`dbNow`); whenever the two clock readings differ textually, GetByID
afterwards returns a `created_at` different from the one Create returned,
and the two tickets differ in exactly that field. -/
theorem c9_created_at_not_persisted (req : CreateReq) (newId respNow dbNow : String)
    (s : Store)
    (hbn : truthy req.buyer_name = true) (hen : truthy req.event_name = true)
    (hfresh : ∀ t ∈ s, t.id ≠ newId) (hne : respNow ≠ dbNow) :
    ∃ respT storedT : Ticket,
      (createRoot req newId respNow dbNow s).resp = .ok respT ∧
      getByIdRoot newId (createRoot req newId respNow dbNow s).store = .ok storedT ∧
      respT.created_at = respNow ∧ storedT.created_at = dbNow ∧
      respT.created_at ≠ storedT.created_at ∧
      respT = { storedT with created_at := respNow } := by
  refine ⟨{ mkRow req newId dbNow with created_at := respNow }, mkRow req newId dbNow,
    ?_, ?_, rfl, rfl, hne, rfl⟩
  · rw [createRoot_success newId respNow dbNow hbn hen hfresh]
  · rw [createRoot_success newId respNow dbNow hbn hen hfresh]
    have hfind : (s ++ [mkRow req newId dbNow]).find? (fun t => t.id == newId) =
        some (mkRow req newId dbNow) := by
      rw [find_append_fresh _ (fun t ht => by simp [hfresh t ht])]
      simp [mkRow]
    simp [getByIdRoot, hfind]

/-- Witness for C9 at a concrete execution whose two clock readings differ. -/
theorem c9_witness :
    ∃ respT storedT : Ticket,
      (createRoot reqAna "t1" "2024-01-01T00:00:00+00:00" "2024-01-01 00:00:00" []).resp
        = .ok respT ∧
      getByIdRoot "t1"
          (createRoot reqAna "t1" "2024-01-01T00:00:00+00:00" "2024-01-01 00:00:00" []).store
        = .ok storedT ∧
      respT.created_at = "2024-01-01T00:00:00+00:00" ∧
      storedT.created_at = "2024-01-01 00:00:00" ∧
      respT.created_at ≠ storedT.created_at ∧
      respT = { storedT with created_at := "2024-01-01T00:00:00+00:00" } :=
  c9_created_at_not_persisted reqAna "t1" "2024-01-01T00:00:00+00:00" "2024-01-01 00:00:00"
    [] (by decide) (by decide) (by simp) (by decide)

/-- C7: for a ticket freshly created by the root implementation's Create,
Validate on its id before any Redeem answers `valid = true` with the ticket
attached; after the (successful) Redeem, Validate on the same id answers
`valid = false` with the already-redeemed message and the redeemed row. -/
theorem c7_validate_round_trip (req : CreateReq) (newId respNow dbNow : String) (s : Store)
    (hbn : truthy req.buyer_name = true) (hen : truthy req.event_name = true)
    (hid : newId ≠ "") (hfresh : ∀ t ∈ s, t.id ≠ newId) :
    validateRoot (some newId) (createRoot req newId respNow dbNow s).store =
      .ok { valid := true, message := "Ticket válido", already_redeemed := none,
            ticket := some (mkRow req newId dbNow) } ∧
    (redeemRoot (some newId) (createRoot req newId respNow dbNow s).store).1 =
      .ok { success := none, message := "Ticket canjeado exitosamente" } ∧
    validateRoot (some newId)
        (redeemRoot (some newId) (createRoot req newId respNow dbNow s).store).2 =
      .ok { valid := false, message := "Ticket ya fue canjeado", already_redeemed := none,
            ticket := some { mkRow req newId dbNow with status := statusRedeemed } } := by
  have ht := truthy_some hid
  have hne : (statusValid == statusRedeemed) = false := by decide
  rw [createRoot_success newId respNow dbNow hbn hen hfresh]
  have hfind : (s ++ [mkRow req newId dbNow]).find? (fun t => t.id == newId) =
      some (mkRow req newId dbNow) := by
    rw [find_append_fresh _ (fun t ht => by simp [hfresh t ht])]
    simp [mkRow]
  have hcount : (s ++ [mkRow req newId dbNow]).countP
      (fun t => t.id == newId && t.status == statusValid) = 1 := by
    rw [List.countP_append]
    rw [countP_fresh (fun t ht => by simp [hfresh t ht])]
    simp [mkRow]
  have hmap : (s ++ [mkRow req newId dbNow]).map
      (fun t => if t.id == newId && t.status == statusValid
        then { t with status := statusRedeemed } else t) =
      s ++ [{ mkRow req newId dbNow with status := statusRedeemed }] := by
    rw [List.map_append]
    rw [map_fresh (fun t ht => by simp [hfresh t ht])]
    simp [mkRow]
  refine ⟨?_, ?_, ?_⟩
  · rw [validateRoot_found ht hfind]
    simp [mkRow, hne]
  · rw [redeemRoot_run ht]
    simp [hcount]
  · have hstate : (redeemRoot (some newId) (s ++ [mkRow req newId dbNow])).2 =
        s ++ [{ mkRow req newId dbNow with status := statusRedeemed }] := by
      rw [redeemRoot_run ht]
      exact hmap
    rw [hstate]
    have hfind2 : (s ++ [{ mkRow req newId dbNow with status := statusRedeemed }]).find?
        (fun t => t.id == newId) =
        some { mkRow req newId dbNow with status := statusRedeemed } := by
      rw [find_append_fresh _ (fun t ht => by simp [hfresh t ht])]
      simp [mkRow]
    rw [validateRoot_found ht hfind2]
    simp [mkRow]

/-- Witness for C7 at the concrete creation of `t1` on the empty store. -/
theorem c7_witness :
    validateRoot (some "t1")
        (createRoot reqAna "t1" "rn" "2024-01-01 00:00:00" []).store =
      .ok { valid := true, message := "Ticket válido", already_redeemed := none,
            ticket := some (mkRow reqAna "t1" "2024-01-01 00:00:00") } ∧
    (redeemRoot (some "t1")
        (createRoot reqAna "t1" "rn" "2024-01-01 00:00:00" []).store).1 =
      .ok { success := none, message := "Ticket canjeado exitosamente" } ∧
    validateRoot (some "t1")
        (redeemRoot (some "t1")
          (createRoot reqAna "t1" "rn" "2024-01-01 00:00:00" []).store).2 =
      .ok { valid := false, message := "Ticket ya fue canjeado", already_redeemed := none,
            ticket := some { mkRow reqAna "t1" "2024-01-01 00:00:00"
                             with status := statusRedeemed } } :=
  c7_validate_round_trip reqAna "t1" "rn" "2024-01-01 00:00:00" []
    (by decide) (by decide) (by decide) (by simp)

/-- C2 counterexample: on identical stores and identical requests the two
implementations disagree.  Redeeming the already-redeemed `t1`: the root
implementation answers 400 (conflict) while the server implementation answers
200 (success); redeeming an absent id: 400 versus 404; validating the
redeemed `t1`: the two response bodies differ (ticket attached versus
`already_redeemed` flag).  Hence they are not behaviorally equivalent. -/
theorem c2_counterexample :
    (redeemRoot (some "t1") [tRedeemed]).1.code = 400 ∧
    (redeemServer (some "t1") [tRedeemed]).1.code = 200 ∧
    redeemRoot (some "t1") [tRedeemed] ≠ redeemServer (some "t1") [tRedeemed] ∧
    (redeemRoot (some "t2") []).1.code = 400 ∧
    (redeemServer (some "t2") []).1.code = 404 ∧
    validateRoot (some "t1") [tRedeemed] ≠ validateServer (some "t1") [tRedeemed] :=
  ⟨rfl, rfl, by decide, rfl, rfl, by decide⟩

/-- C2 (amended): the two implementations agree — up to message texts, the
server's extra `success`/`already_redeemed` flags, and response timestamp
formatting — on GetByID, List, Delete, on Create whenever the server's extra
`qr_code UNIQUE` constraint is not triggered, and on Validate except for a
found already-redeemed ticket; on Redeem they agree only when every row with
the requested id has status `Válido`, and they diverge otherwise (see the
counterexample). -/
theorem c2_partial_equivalence (s : Store) (id tid : String) (req : CreateReq)
    (newId respNowR respNowS dbNow : String) :
    getByIdRoot id s = getByIdServer id s ∧
    listRoot s = listServer s ∧
    (deleteRoot id s).2 = (deleteServer id s).2 ∧
    (deleteRoot id s).1.code = (deleteServer id s).1.code ∧
    ((∀ t ∈ s, t.qr_code ≠ qrToDataURL newId) →
      (createRoot req newId respNowR dbNow s).store
        = (createServer req newId respNowS dbNow s).store ∧
      (createRoot req newId respNowR dbNow s).qrCalls
        = (createServer req newId respNowS dbNow s).qrCalls ∧
      (createRoot req newId respNowR dbNow s).resp.code
        = (createServer req newId respNowS dbNow s).resp.code ∧
      (∀ tr ts : Ticket, (createRoot req newId respNowR dbNow s).resp = .ok tr →
        (createServer req newId respNowS dbNow s).resp = .ok ts →
        tr = { ts with created_at := respNowR })) ∧
    validateRoot none s = validateServer none s ∧
    (s.find? (fun t => t.id == tid) = none →
      validateRoot (some tid) s = validateServer (some tid) s) ∧
    (∀ row : Ticket, s.find? (fun t => t.id == tid) = some row →
      row.status ≠ statusRedeemed →
      validateRoot (some tid) s = validateServer (some tid) s) ∧
    (tid ≠ "" → (∃ t ∈ s, t.id = tid) →
      (∀ t ∈ s, t.id = tid → t.status = statusValid) →
      (redeemRoot (some tid) s).2 = (redeemServer (some tid) s).2 ∧
      (redeemRoot (some tid) s).1.code = (redeemServer (some tid) s).1.code) := by
  refine ⟨rfl, rfl, by rw [deleteRoot_state, deleteServer_state], ?_, ?_, rfl, ?_, ?_, ?_⟩
  · cases h : s.countP (fun t => t.id == id) == 0 <;>
      simp [deleteRoot, deleteServer, h, Resp.code]
  · intro hqr
    cases hv : (truthy req.buyer_name && truthy req.event_name) with
    | false =>
      refine ⟨by simp [createRoot, createServer, hv], by simp [createRoot, createServer, hv],
        by simp [createRoot, createServer, hv, Resp.code], ?_⟩
      intro tr ts htr _
      simp [createRoot, hv] at htr
    | true =>
      obtain ⟨hbn, hen⟩ : truthy req.buyer_name = true ∧ truthy req.event_name = true := by
        simpa using hv
      cases hd : s.any (fun t => t.id == newId) with
      | true =>
        have hd' : s.any (fun t => t.id == newId || t.qr_code == qrToDataURL newId) = true := by
          obtain ⟨t, ht, hp⟩ := List.any_eq_true.mp hd
          exact List.any_eq_true.mpr ⟨t, ht, by simp [hp]⟩
        refine ⟨by simp [createRoot, createServer, hv, hd, hd'],
          by simp [createRoot, createServer, hv, hd, hd'],
          by simp [createRoot, createServer, hv, hd, hd', Resp.code], ?_⟩
        intro tr ts htr _
        simp [createRoot, hv, hd] at htr
      | false =>
        have hfresh : ∀ t ∈ s, t.id ≠ newId := by
          intro t ht heq
          have hnp := List.any_eq_false.mp hd t ht
          simp [heq] at hnp
        have hd' : s.any (fun t => t.id == newId || t.qr_code == qrToDataURL newId) = false := by
          rw [List.any_eq_false]
          intro t ht
          simp [hfresh t ht, hqr t ht]
        have hs : s.any (fun t => t.id == newId || t.qr_code == qrToDataURL newId) ≠ true := by
          simp [hd']
        rw [createRoot_success newId respNowR dbNow hbn hen hfresh,
          createServer_success newId respNowS dbNow hbn hen hfresh hqr]
        refine ⟨rfl, rfl, rfl, ?_⟩
        intro tr ts htr hts
        cases htr
        cases hts
        rfl
  · intro hf
    cases htr : truthy (some tid) <;>
      simp [validateRoot, validateServer, htr, hf]
  · intro row hf hrow
    cases htr : truthy (some tid) with
    | false => simp [validateRoot, validateServer, htr]
    | true =>
      rw [validateRoot_found htr hf, validateServer_found htr hf]
      simp [beq_eq_false_iff_ne.mpr hrow]
  · intro hne hex hall
    have ht := truthy_some hne
    rw [redeemRoot_run ht, redeemServer_run ht]
    have hcnt : s.countP (fun t => t.id == tid && t.status == statusValid)
        = s.countP (fun t => t.id == tid) := by
      apply List.countP_congr
      intro t htm
      constructor
      · intro hb
        simp only [Bool.and_eq_true] at hb
        exact hb.1
      · intro hb
        have htid : t.id = tid := by simpa using hb
        simp [hb, hall t htm htid]
    have hmap : s.map (fun t => if t.id == tid && t.status == statusValid
          then { t with status := statusRedeemed } else t)
        = s.map (fun t => if t.id == tid then { t with status := statusRedeemed } else t) := by
      apply List.map_congr_left
      intro t htm
      cases hb : (t.id == tid) with
      | false => simp [hb]
      | true =>
        have htid : t.id = tid := by simpa using hb
        simp [hb, hall t htm htid, statusValid]
    have hpos : s.countP (fun t => t.id == tid) ≠ 0 := by
      obtain ⟨t, htm, htid⟩ := hex
      have : 0 < s.countP (fun t => t.id == tid) :=
        List.countP_pos_iff.mpr ⟨t, htm, by simp [htid]⟩
      omega
    have hb0 : (s.countP (fun t => t.id == tid) == 0) = false :=
      beq_eq_false_iff_ne.mpr hpos
    rw [hcnt, hmap]
    simp [hb0, Resp.code]

/-- Witness for C2 applying the partial equivalence at concrete stores and
requests, discharging each hypothesis. -/
theorem c2_witness :
    (createRoot reqAna "t2" "a" "c" [tValid]).store
      = (createServer reqAna "t2" "b" "c" [tValid]).store ∧
    validateRoot (some "zz") [tValid] = validateServer (some "zz") [tValid] ∧
    validateRoot (some "t1") [tValid] = validateServer (some "t1") [tValid] ∧
    (redeemRoot (some "t1") [tValid]).2 = (redeemServer (some "t1") [tValid]).2 ∧
    (redeemRoot (some "t1") [tValid]).1.code
      = (redeemServer (some "t1") [tValid]).1.code := by
  obtain ⟨-, -, -, -, hcreate, -, -, hfound, hredeem⟩ :=
    c2_partial_equivalence [tValid] "x" "t1" reqAna "t2" "a" "b" "c"
  obtain ⟨-, -, -, -, -, -, hnf, -, -⟩ :=
    c2_partial_equivalence [tValid] "x" "zz" reqAna "t2" "a" "b" "c"
  have h4 := hredeem (by decide) ⟨tValid, by simp, rfl⟩ (by decide)
  exact ⟨(hcreate (by decide)).1, hnf (by decide),
    hfound tValid (by decide) (by decide), h4.1, h4.2⟩

theorem goodStatus_append {s : Store} {row : Ticket} (hs : GoodStatus s)
    (hrow : row.status = statusValid ∨ row.status = statusRedeemed) :
    GoodStatus (s ++ [row]) := by
  intro t ht
  rcases List.mem_append.mp ht with h | h
  · exact hs t h
  · rw [List.mem_singleton.mp h]
    exact hrow

theorem uniqueIds_append {s : Store} {row : Ticket} (hs : UniqueIds s)
    (hrow : ∀ t ∈ s, t.id ≠ row.id) : UniqueIds (s ++ [row]) := by
  unfold UniqueIds at hs ⊢
  rw [List.map_append]
  refine List.Nodup.append hs (List.nodup_singleton _) ?_
  intro a ha hb
  obtain ⟨t, ht, htid⟩ := List.mem_map.mp ha
  rw [List.mem_singleton.mp hb] at htid
  exact hrow t ht htid

theorem storeInv_create_root (req : CreateReq) (newId respNow dbNow : String) {s : Store}
    (h : StoreInv s) : StoreInv (createRoot req newId respNow dbNow s).store := by
  cases hv : (truthy req.buyer_name && truthy req.event_name) with
  | false => simpa [createRoot, hv] using h
  | true =>
    obtain ⟨hbn, hen⟩ : truthy req.buyer_name = true ∧ truthy req.event_name = true := by
      simpa using hv
    cases hd : s.any (fun t => t.id == newId) with
    | true => simpa [createRoot, hv, hd] using h
    | false =>
      have hfresh : ∀ t ∈ s, t.id ≠ newId := by
        intro t ht heq
        have hnp := List.any_eq_false.mp hd t ht
        simp [heq] at hnp
      rw [createRoot_success newId respNow dbNow hbn hen hfresh]
      exact ⟨goodStatus_append h.1 (Or.inl rfl), uniqueIds_append h.2 hfresh⟩

theorem storeInv_create_server (req : CreateReq) (newId respNow dbNow : String) {s : Store}
    (h : StoreInv s) : StoreInv (createServer req newId respNow dbNow s).store := by
  cases hv : (truthy req.buyer_name && truthy req.event_name) with
  | false => simpa [createServer, hv] using h
  | true =>
    obtain ⟨hbn, hen⟩ : truthy req.buyer_name = true ∧ truthy req.event_name = true := by
      simpa using hv
    cases hd : s.any (fun t => t.id == newId || t.qr_code == qrToDataURL newId) with
    | true => simpa [createServer, hv, hd] using h
    | false =>
      have hboth : ∀ t ∈ s, t.id ≠ newId ∧ t.qr_code ≠ qrToDataURL newId := by
        intro t ht
        have hnp := List.any_eq_false.mp hd t ht
        simp only [Bool.or_eq_true, not_or] at hnp
        constructor
        · intro heq
          exact hnp.1 (by simp [heq])
        · intro heq
          exact hnp.2 (by simp [heq])
      rw [createServer_success newId respNow dbNow hbn hen
        (fun t ht => (hboth t ht).1) (fun t ht => (hboth t ht).2)]
      exact ⟨goodStatus_append h.1 (Or.inl rfl),
        uniqueIds_append h.2 (fun t ht => (hboth t ht).1)⟩

theorem storeInv_map {s : Store} (g : Ticket → Ticket)
    (hg_id : ∀ t, (g t).id = t.id)
    (hg_st : ∀ t, (g t).status = t.status ∨ (g t).status = statusRedeemed)
    (h : StoreInv s) : StoreInv (s.map g) := by
  refine ⟨?_, ?_⟩
  · intro t ht
    obtain ⟨u, hu, rfl⟩ := List.mem_map.mp ht
    rcases hg_st u with h1 | h1
    · rw [h1]
      exact h.1 u hu
    · exact Or.inr h1
  · unfold UniqueIds
    rw [List.map_map]
    have hfun : (Ticket.id ∘ g) = Ticket.id := funext hg_id
    rw [hfun]
    exact h.2

theorem storeInv_filter {s : Store} (p : Ticket → Bool) (h : StoreInv s) :
    StoreInv (s.filter p) :=
  ⟨fun t ht => h.1 t (List.mem_filter.mp ht).1,
   List.Nodup.sublist ((List.filter_sublist s).map Ticket.id) h.2⟩

theorem storeInv_step {tag : OpTag} {s s' : Store} (h : StoreInv s)
    (hstep : Step tag s s') : StoreInv s' := by
  cases hstep with
  | createR req newId respNow dbNow => exact storeInv_create_root req newId respNow dbNow h
  | createS req newId respNow dbNow => exact storeInv_create_server req newId respNow dbNow h
  | redeemR tid =>
    cases htr : truthy tid with
    | false =>
      cases tid with
      | none => simpa [redeemRoot, truthy] using h
      | some x => simpa [redeemRoot, htr] using h
    | true =>
      cases tid with
      | none => simp [truthy] at htr
      | some x =>
        rw [redeemRoot_run htr]
        refine storeInv_map _ (fun t => ?_) (fun t => ?_) h
        · dsimp only
          split <;> rfl
        · dsimp only
          split
          · exact Or.inr rfl
          · exact Or.inl rfl
  | redeemS tid =>
    cases htr : truthy tid with
    | false =>
      cases tid with
      | none => simpa [redeemServer, truthy] using h
      | some x => simpa [redeemServer, htr] using h
    | true =>
      cases tid with
      | none => simp [truthy] at htr
      | some x =>
        rw [redeemServer_run htr]
        refine storeInv_map _ (fun t => ?_) (fun t => ?_) h
        · dsimp only
          split <;> rfl
        · dsimp only
          split
          · exact Or.inr rfl
          · exact Or.inl rfl
  | deleteR id =>
    rw [deleteRoot_state]
    exact storeInv_filter _ h
  | deleteS id =>
    rw [deleteServer_state]
    exact storeInv_filter _ h

theorem storeInv_reachable {s : Store} (h : Reachable s) : StoreInv s := by
  induction h with
  | nil => exact ⟨fun t ht => absurd ht (List.not_mem_nil t), List.nodup_nil⟩
  | step tag hr hstep ih => exact storeInv_step ih hstep

/-- C3: from any reachable store, a step of any state-changing operation of
either implementation (the read-only list/get/validate handlers return no
store by construction) moves each surviving ticket's status either not at all
or from `Válido` to `Canjeado`, and only a redeem step does the latter; a
ticket that is `Canjeado` stays `Canjeado` — the status never reverts. -/
theorem c3_status_monotonic {tag : OpTag} {s s' : Store}
    (hre : Reachable s) (hstep : Step tag s s')
    (t t' : Ticket) (ht : t ∈ s) (ht' : t' ∈ s') (hid : t'.id = t.id) :
    (t'.status = t.status ∨
      (t.status = statusValid ∧ t'.status = statusRedeemed ∧ tag = OpTag.redeem)) ∧
    (t.status = statusRedeemed → t'.status = statusRedeemed) := by
  have hinv := storeInv_reachable hre
  have hVR : statusValid ≠ statusRedeemed := by decide
  suffices hmain : t'.status = t.status ∨
      (t.status = statusValid ∧ t'.status = statusRedeemed ∧ tag = OpTag.redeem) by
    refine ⟨hmain, fun hR => ?_⟩
    rcases hmain with he | ⟨hV, hC, -⟩
    · rw [he, hR]
    · exact hC
  cases hstep with
  | createR req newId respNow dbNow =>
    cases hv : (truthy req.buyer_name && truthy req.event_name) with
    | false =>
      have hss : (createRoot req newId respNow dbNow s).store = s := by
        simp [createRoot, hv]
      rw [hss] at ht'
      exact Or.inl (by rw [mem_id_unique hinv.2 ht' ht hid])
    | true =>
      obtain ⟨hbn, hen⟩ : truthy req.buyer_name = true ∧ truthy req.event_name = true := by
        simpa using hv
      cases hd : s.any (fun u => u.id == newId) with
      | true =>
        have hss : (createRoot req newId respNow dbNow s).store = s := by
          simp [createRoot, hv, hd]
        rw [hss] at ht'
        exact Or.inl (by rw [mem_id_unique hinv.2 ht' ht hid])
      | false =>
        have hfresh : ∀ u ∈ s, u.id ≠ newId := by
          intro u hu heq
          have hnp := List.any_eq_false.mp hd u hu
          simp [heq] at hnp
        rw [createRoot_success newId respNow dbNow hbn hen hfresh] at ht'
        rcases List.mem_append.mp ht' with hmem | hmem
        · exact Or.inl (by rw [mem_id_unique hinv.2 hmem ht hid])
        · exfalso
          have hnew : t'.id = newId := by
            rw [List.mem_singleton.mp hmem]
            rfl
          exact hfresh t ht (by rw [← hid, hnew])
  | createS req newId respNow dbNow =>
    cases hv : (truthy req.buyer_name && truthy req.event_name) with
    | false =>
      have hss : (createServer req newId respNow dbNow s).store = s := by
        simp [createServer, hv]
      rw [hss] at ht'
      exact Or.inl (by rw [mem_id_unique hinv.2 ht' ht hid])
    | true =>
      obtain ⟨hbn, hen⟩ : truthy req.buyer_name = true ∧ truthy req.event_name = true := by
        simpa using hv
      cases hd : s.any (fun u => u.id == newId || u.qr_code == qrToDataURL newId) with
      | true =>
        have hss : (createServer req newId respNow dbNow s).store = s := by
          simp [createServer, hv, hd]
        rw [hss] at ht'
        exact Or.inl (by rw [mem_id_unique hinv.2 ht' ht hid])
      | false =>
        have hboth : ∀ u ∈ s, u.id ≠ newId ∧ u.qr_code ≠ qrToDataURL newId := by
          intro u hu
          have hnp := List.any_eq_false.mp hd u hu
          simp only [Bool.or_eq_true, not_or] at hnp
          exact ⟨fun heq => hnp.1 (by simp [heq]), fun heq => hnp.2 (by simp [heq])⟩
        rw [createServer_success newId respNow dbNow hbn hen
          (fun u hu => (hboth u hu).1) (fun u hu => (hboth u hu).2)] at ht'
        rcases List.mem_append.mp ht' with hmem | hmem
        · exact Or.inl (by rw [mem_id_unique hinv.2 hmem ht hid])
        · exfalso
          have hnew : t'.id = newId := by
            rw [List.mem_singleton.mp hmem]
            rfl
          exact (hboth t ht).1 (by rw [← hid, hnew])
  | redeemR tid =>
    cases tid with
    | none =>
      have hss : (redeemRoot none s).2 = s := by simp [redeemRoot, truthy]
      rw [hss] at ht'
      exact Or.inl (by rw [mem_id_unique hinv.2 ht' ht hid])
    | some x =>
      cases htr : truthy (some x) with
      | false =>
        have hss : (redeemRoot (some x) s).2 = s := by simp [redeemRoot, htr]
        rw [hss] at ht'
        exact Or.inl (by rw [mem_id_unique hinv.2 ht' ht hid])
      | true =>
        rw [redeemRoot_run htr] at ht'
        obtain ⟨u, hu, hgu⟩ := List.mem_map.mp ht'
        have hgid : t'.id = u.id := by
          rw [← hgu]
          split <;> rfl
        have huid : u.id = t.id := by
          rw [← hgid]
          exact hid
        have hut : u = t := mem_id_unique hinv.2 hu ht huid
        subst hut
        rw [← hgu]
        cases hc : (u.id == x && u.status == statusValid) with
        | false =>
          rw [if_neg (by simp)]
          exact Or.inl rfl
        | true =>
          rw [if_pos rfl]
          simp only [Bool.and_eq_true, beq_iff_eq] at hc
          exact Or.inr ⟨hc.2, rfl, rfl⟩
  | redeemS tid =>
    cases tid with
    | none =>
      have hss : (redeemServer none s).2 = s := by simp [redeemServer, truthy]
      rw [hss] at ht'
      exact Or.inl (by rw [mem_id_unique hinv.2 ht' ht hid])
    | some x =>
      cases htr : truthy (some x) with
      | false =>
        have hss : (redeemServer (some x) s).2 = s := by simp [redeemServer, htr]
        rw [hss] at ht'
        exact Or.inl (by rw [mem_id_unique hinv.2 ht' ht hid])
      | true =>
        rw [redeemServer_run htr] at ht'
        obtain ⟨u, hu, hgu⟩ := List.mem_map.mp ht'
        have hgid : t'.id = u.id := by
          rw [← hgu]
          split <;> rfl
        have huid : u.id = t.id := by
          rw [← hgid]
          exact hid
        have hut : u = t := mem_id_unique hinv.2 hu ht huid
        subst hut
        rw [← hgu]
        cases hc : (u.id == x) with
        | false =>
          rw [if_neg (by simp)]
          exact Or.inl rfl
        | true =>
          rw [if_pos rfl]
          rcases hinv.1 u hu with hV | hR
          · exact Or.inr ⟨hV, rfl, rfl⟩
          · exact Or.inl (by rw [hR])
  | deleteR id =>
    rw [deleteRoot_state] at ht'
    exact Or.inl (by rw [mem_id_unique hinv.2 (List.mem_filter.mp ht').1 ht hid])
  | deleteS id =>
    rw [deleteServer_state] at ht'
    exact Or.inl (by rw [mem_id_unique hinv.2 (List.mem_filter.mp ht').1 ht hid])

/-- Witness for C3: the reachable one-ticket store, stepped by the root
redeem, moves `t1` from `Válido` to `Canjeado`. -/
theorem c3_witness :
    (tRedeemed.status = tValid.status ∨
      (tValid.status = statusValid ∧ tRedeemed.status = statusRedeemed ∧
        OpTag.redeem = OpTag.redeem)) ∧
    (tValid.status = statusRedeemed → tRedeemed.status = statusRedeemed) := by
  have hstore : (createRoot reqAna "t1" "rn" "2024-01-01 00:00:00" []).store = [tValid] :=
    rfl
  have hreach : Reachable [tValid] :=
    hstore ▸ Reachable.step OpTag.create Reachable.nil
      (Step.createR reqAna "t1" "rn" "2024-01-01 00:00:00" [])
  have hstep : Step OpTag.redeem [tValid] (redeemRoot (some "t1") [tValid]).2 :=
    Step.redeemR (some "t1") [tValid]
  have hsnd : (redeemRoot (some "t1") [tValid]).2 = [tRedeemed] := rfl
  exact c3_status_monotonic hreach hstep tValid tRedeemed (by simp)
    (by rw [hsnd]; exact List.mem_singleton.mpr rfl) rfl
